import Mathlib

/-!
Verification of the netatmo-exporter core (src/client.py, src/netatmo_api.py)
against its natural-language specification.

The embedding is shallow: every Python value that originates from parsed JSON,
together with Python `None`, is modeled by the `Json` type below, with
`Json.null` standing both for JSON null and for Python `None` (the two are
identified by Python's own json module, which parses null to None).  JSON
numbers are modeled as integers; no claim under scrutiny depends on fractional
values.  Python exceptions become `Except` results; functions that mutate
state take the state and return the new one.
-/

namespace Netatmo

/-- A parsed JSON value / a Python value obtained from parsed JSON.
`null` stands for JSON null and for Python None alike.  Objects are
insertion-ordered field lists with unique keys, as Python dicts are. -/
inductive Json where
  | null
  | bool (b : Bool)
  | num (n : Int)
  | str (s : String)
  | arr (xs : List Json)
  | obj (fields : List (String × Json))
  deriving Repr

mutual

def Json.decEq : (a b : Json) → Decidable (a = b)
  | .null, .null => .isTrue rfl
  | .bool x, .bool y =>
    if h : x = y then .isTrue (h ▸ rfl) else .isFalse (fun hh => h (by injection hh))
  | .num x, .num y =>
    if h : x = y then .isTrue (h ▸ rfl) else .isFalse (fun hh => h (by injection hh))
  | .str x, .str y =>
    if h : x = y then .isTrue (h ▸ rfl) else .isFalse (fun hh => h (by injection hh))
  | .arr xs, .arr ys =>
    match Json.decEqList xs ys with
    | .isTrue h => .isTrue (h ▸ rfl)
    | .isFalse h => .isFalse (fun hh => h (by injection hh))
  | .obj xs, .obj ys =>
    match Json.decEqFields xs ys with
    | .isTrue h => .isTrue (h ▸ rfl)
    | .isFalse h => .isFalse (fun hh => h (by injection hh))
  | .null, .bool _ => .isFalse (fun h => Json.noConfusion h)
  | .null, .num _ => .isFalse (fun h => Json.noConfusion h)
  | .null, .str _ => .isFalse (fun h => Json.noConfusion h)
  | .null, .arr _ => .isFalse (fun h => Json.noConfusion h)
  | .null, .obj _ => .isFalse (fun h => Json.noConfusion h)
  | .bool _, .null => .isFalse (fun h => Json.noConfusion h)
  | .bool _, .num _ => .isFalse (fun h => Json.noConfusion h)
  | .bool _, .str _ => .isFalse (fun h => Json.noConfusion h)
  | .bool _, .arr _ => .isFalse (fun h => Json.noConfusion h)
  | .bool _, .obj _ => .isFalse (fun h => Json.noConfusion h)
  | .num _, .null => .isFalse (fun h => Json.noConfusion h)
  | .num _, .bool _ => .isFalse (fun h => Json.noConfusion h)
  | .num _, .str _ => .isFalse (fun h => Json.noConfusion h)
  | .num _, .arr _ => .isFalse (fun h => Json.noConfusion h)
  | .num _, .obj _ => .isFalse (fun h => Json.noConfusion h)
  | .str _, .null => .isFalse (fun h => Json.noConfusion h)
  | .str _, .bool _ => .isFalse (fun h => Json.noConfusion h)
  | .str _, .num _ => .isFalse (fun h => Json.noConfusion h)
  | .str _, .arr _ => .isFalse (fun h => Json.noConfusion h)
  | .str _, .obj _ => .isFalse (fun h => Json.noConfusion h)
  | .arr _, .null => .isFalse (fun h => Json.noConfusion h)
  | .arr _, .bool _ => .isFalse (fun h => Json.noConfusion h)
  | .arr _, .num _ => .isFalse (fun h => Json.noConfusion h)
  | .arr _, .str _ => .isFalse (fun h => Json.noConfusion h)
  | .arr _, .obj _ => .isFalse (fun h => Json.noConfusion h)
  | .obj _, .null => .isFalse (fun h => Json.noConfusion h)
  | .obj _, .bool _ => .isFalse (fun h => Json.noConfusion h)
  | .obj _, .num _ => .isFalse (fun h => Json.noConfusion h)
  | .obj _, .str _ => .isFalse (fun h => Json.noConfusion h)
  | .obj _, .arr _ => .isFalse (fun h => Json.noConfusion h)

def Json.decEqList : (xs ys : List Json) → Decidable (xs = ys)
  | [], [] => .isTrue rfl
  | [], _ :: _ => .isFalse (fun h => List.noConfusion h)
  | _ :: _, [] => .isFalse (fun h => List.noConfusion h)
  | x :: xs, y :: ys =>
    match Json.decEq x y, Json.decEqList xs ys with
    | .isTrue h1, .isTrue h2 => .isTrue (by rw [h1, h2])
    | .isFalse h1, _ => .isFalse (fun h => h1 (by injection h))
    | .isTrue _, .isFalse h2 => .isFalse (fun h => h2 (by injection h))

def Json.decEqFields : (xs ys : List (String × Json)) → Decidable (xs = ys)
  | [], [] => .isTrue rfl
  | [], _ :: _ => .isFalse (fun h => List.noConfusion h)
  | _ :: _, [] => .isFalse (fun h => List.noConfusion h)
  | (k1, v1) :: xs, (k2, v2) :: ys =>
    if h1 : k1 = k2 then
      match Json.decEq v1 v2, Json.decEqFields xs ys with
      | .isTrue h2, .isTrue h3 => .isTrue (by rw [h1, h2, h3])
      | .isFalse h2, _ => .isFalse (fun h => h2 (by cases h; rfl))
      | .isTrue _, .isFalse h3 => .isFalse (fun h => h3 (by injection h))
    else .isFalse (fun h => h1 (by cases h; rfl))

end

instance : DecidableEq Json := Json.decEq

/-- Python exceptions that the embedded code can raise and that no handler in
the polled loop catches. -/
inductive PyErr where
  | keyError
  | attributeError
  | typeError
  | valueError
  deriving DecidableEq, Repr

/-- The exception classes of netatmo_api.py, plus uncaught Python exceptions.
`authError` is NetatmoAuthError, `authErrorTokenExpired` is
NetatmoAuthErrorTokenExpired, `apiError` is NetatmoAPIError, and
`throttlingError` is NetatmoThrottlingError. -/
inductive NetErr where
  | authError
  | authErrorTokenExpired
  | apiError
  | throttlingError
  | py (e : PyErr)
  deriving DecidableEq, Repr

/-- Python truthiness of a JSON-shaped value. -/
def Json.truthy : Json → Bool
  | .null => false
  | .bool b => b
  | .num n => n != 0
  | .str s => s != ""
  | .arr xs => !xs.isEmpty
  | .obj fs => !fs.isEmpty

/-- Key lookup in a parsed-JSON object field list.  Parsed JSON objects have
unique keys, so first-match lookup is exactly Python dict lookup. -/
def fieldGet : List (String × Json) → String → Option Json
  | [], _ => none
  | (k2, v) :: rest, k => if k2 = k then some v else fieldGet rest k

/-- Python `d.get(key, default)` on a dict of JSON-shaped values. -/
def fieldGetD (fs : List (String × Json)) (k : String) (d : Json) : Json :=
  (fieldGet fs k).getD d

/-- The float(value) coercion that prometheus Gauge.set applies to its
argument: bools coerce to 0/1, numbers pass through, numeric strings parse
(modeled by integer parsing, numbers being modeled as integers throughout),
and None, lists and dicts raise TypeError, non-numeric strings ValueError. -/
def pyFloat : Json → Except PyErr Int
  | .bool b => .ok (if b then 1 else 0)
  | .num n => .ok n
  | .str s =>
    match s.toInt? with
    | some n => .ok n
    | none => .error .valueError
  | .null => .error .typeError
  | .arr _ => .error .typeError
  | .obj _ => .error .typeError

/-- Values usable as the second operand of Python arithmetic against a float
(`time.time() + expires_in`, `self.token_expires_at - time.time()`): numbers,
and bools, which Python treats as 0/1.  Everything else raises TypeError. -/
def pyNum : Json → Option Int
  | .num n => some n
  | .bool b => some (if b then 1 else 0)
  | _ => none

/-- The token-related mutable state of NetatmoAuth: self.access_token,
self.refresh_token and self.token_expires_at.  Each can hold any JSON-shaped
value (they are read back from the token file with plain .get calls), with
`Json.null` for None/absent. -/
structure AuthTokens where
  access_token : Json
  refresh_token : Json
  token_expires_at : Json
  deriving DecidableEq, Repr

/-- What opening and json.load-ing the token file can yield: the file is
absent (FileNotFoundError), present but not valid JSON (json.JSONDecodeError),
or parsed to a JSON value. -/
inductive TokenFileState where
  | missing
  | unparsable
  | parsed (j : Json)
  deriving DecidableEq, Repr

/-- NetatmoAuth.__init__ (netatmo_api.py lines 53 to 84) restricted to the
token state it establishes: the constructor first sets refresh_token to its
argument and access_token / token_expires_at to None, then tries to read the
token file; a missing or unparsable file is caught and leaves the constructor
values, while a file that parses replaces all three fields with plain .get
lookups (absent keys become None).  A file that parses to a non-dict raises
AttributeError at the first .get, which no except clause catches. -/
def authInit (refresh_token : Json) (file : TokenFileState) : Except PyErr AuthTokens :=
  match file with
  | .missing => .ok { access_token := .null, refresh_token := refresh_token, token_expires_at := .null }
  | .unparsable => .ok { access_token := .null, refresh_token := refresh_token, token_expires_at := .null }
  | .parsed (.obj fs) =>
    .ok { access_token := fieldGetD fs "access_token" .null
        , refresh_token := fieldGetD fs "refresh_token" .null
        , token_expires_at := fieldGetD fs "expires_at" .null }
  | .parsed _ => .error .attributeError

/-- An HTTP response as observed through the requests API: the status code
and the result of response.json() — `none` when the body is not valid JSON,
in which case response.json() raises. -/
structure HttpResponse where
  status_code : Nat
  jsonBody : Option Json
  deriving DecidableEq, Repr

/-- NetatmoAuth.refresh (netatmo_api.py lines 86 to 148) as a function of the
current token state, the token-endpoint response and the current time.
Returns the new token state together with the JSON object written to the
token file, or the exception the call fails with.

The requests-level behavior mirrored here: on status 400 the code inspects
the JSON body inside a try that catches only ValueError, so an unparsable
body falls through to the generic NetatmoAuthError while a body that parses
to a non-dict raises AttributeError (uncaught); raise_for_status raises
HTTPError — a RequestException, downgraded by the final handler to
NetatmoAuthError — exactly for statuses 400 to 599; response.json() on an
unparsable success body raises requests' JSONDecodeError, which is also a
RequestException and is likewise downgraded to NetatmoAuthError.
time.time() + expires_in raises TypeError when a truthy expires_in is not a
number.  The partial attribute mutations a failing call leaves behind are
not modeled; no claim observes them. -/
def refresh (st : AuthTokens) (resp : HttpResponse) (now : Int) :
    Except NetErr (AuthTokens × Json) :=
  if resp.status_code = 400 then
    match resp.jsonBody with
    | some (.obj fs) =>
      if fieldGetD fs "error" .null = .str "invalid_grant" then .error .authErrorTokenExpired
      else .error .authError
    | some _ => .error (.py .attributeError)
    | none => .error .authError
  else if 400 ≤ resp.status_code ∧ resp.status_code < 600 then .error .authError
  else
    match resp.jsonBody with
    | none => .error .authError
    | some (.obj fs) =>
      let accessToken := fieldGetD fs "access_token" .null
      let expiresIn := fieldGetD fs "expires_in" .null
      let expiresAtE : Except NetErr Json :=
        if expiresIn.truthy then
          match pyNum expiresIn with
          | some n => .ok (.num (now + n))
          | none => .error (.py .typeError)
        else .ok .null
      match expiresAtE with
      | .error e => .error e
      | .ok expiresAt =>
        let newRefreshToken := fieldGetD fs "refresh_token" st.refresh_token
        let refreshToken :=
          if newRefreshToken = st.refresh_token then st.refresh_token else newRefreshToken
        .ok ({ access_token := accessToken
             , refresh_token := refreshToken
             , token_expires_at := expiresAt },
             .obj [("access_token", accessToken)
                  , ("refresh_token", refreshToken)
                  , ("expires_at", expiresAt)])
    | some _ => .error (.py .attributeError)

/-- The refresh-triggering logic of the NetatmoAuth.headers property
(netatmo_api.py lines 150 to 167): how many refresh() calls a single read of
the property performs.  time_until_expiration starts as float inf and is
replaced by token_expires_at - time.time() only when token_expires_at is not
None, so with token_expires_at unset the 60-second test is false and only a
falsy access_token triggers the (single) refresh call; the subtraction
raises TypeError when token_expires_at is neither a number nor a bool. -/
def headersRefreshCount (st : AuthTokens) (now : Int) : Except PyErr Nat :=
  match st.token_expires_at with
  | .null => .ok (if !st.access_token.truthy then 1 else 0)
  | e =>
    match pyNum e with
    | some ev => .ok (if !st.access_token.truthy || decide (ev - now ≤ 60) then 1 else 0)
    | none => .error .typeError

/-- NetatmoWeatherStationAPI._handle_response_errors (netatmo_api.py lines
277 to 313).  On 403 the body is inspected inside a try that catches only
ValueError: an unparsable body falls through to NetatmoAPIError, the raised
NetatmoAuthError escapes the try, and a body (or error field) that is not a
dict raises AttributeError at .get, which nothing catches.  Below 400 the
body check likewise raises AttributeError on a parsed non-dict body, and an
unparsable body passes (the ValueError is swallowed). -/
def handle_response_errors (resp : HttpResponse) : Except NetErr Unit :=
  if resp.status_code = 429 then .error .throttlingError
  else if resp.status_code = 403 then
    match resp.jsonBody with
    | none => .error .apiError
    | some (.obj fs) =>
      match fieldGetD fs "error" (.obj []) with
      | .obj efs =>
        if fieldGet efs "code" = some (.num 2) then .error .authError else .error .apiError
      | _ => .error (.py .attributeError)
    | some _ => .error (.py .attributeError)
  else if 400 ≤ resp.status_code then .error .apiError
  else
    match resp.jsonBody with
    | none => .ok ()
    | some (.obj fs) =>
      if !(fieldGetD fs "body" .null).truthy then
        if (fieldGetD fs "error" (.obj [])).truthy then .error .apiError else .ok ()
      else .ok ()
    | some _ => .error (.py .attributeError)

/-- Python `station if isinstance(station, dict) else {}` / the same for
modules: the field list of a dict, an empty dict otherwise. -/
def asDict : Json → List (String × Json)
  | .obj fs => fs
  | _ => []

/-- One normalized module record, with the exact keys and .get defaults of
the module dict built in get_stations (netatmo_api.py lines 257 to 273). -/
structure Module where
  id : Json
  type : Json
  module_name : Json
  last_setup : Json
  data_type : Json
  battery_percent : Json
  reachable : Json
  firmware : Json
  last_message : Json
  last_seen : Json
  rf_status : Json
  battery_vp : Json
  dashboard_data : Json
  deriving DecidableEq, Repr

/-- One normalized station record, with the exact keys and .get defaults of
the station dict built in get_stations (netatmo_api.py lines 230 to 248). -/
structure Station where
  id : Json
  station_name : Json
  date_setup : Json
  last_setup : Json
  type : Json
  last_status_store : Json
  module_name : Json
  firmware : Json
  wifi_status : Json
  reachable : Json
  co2_calibrating : Json
  data_type : Json
  place : Json
  home_id : Json
  home_name : Json
  dashboard_data : Json
  modules : List Module
  deriving DecidableEq, Repr

def mkModule (md : List (String × Json)) : Module where
  id := fieldGetD md "_id" .null
  type := fieldGetD md "type" .null
  module_name := fieldGetD md "module_name" (.str "Unknown")
  last_setup := fieldGetD md "last_setup" .null
  data_type := fieldGetD md "data_type" (.arr [])
  battery_percent := fieldGetD md "battery_percent" .null
  reachable := fieldGetD md "reachable" (.bool false)
  firmware := fieldGetD md "firmware" .null
  last_message := fieldGetD md "last_message" .null
  last_seen := fieldGetD md "last_seen" .null
  rf_status := fieldGetD md "rf_status" .null
  battery_vp := fieldGetD md "battery_vp" .null
  dashboard_data := fieldGetD md "dashboard_data" .null

def mkStation (sd : List (String × Json)) (sid : Json) : Station where
  id := sid
  station_name := fieldGetD sd "station_name" (.str "Unknown")
  date_setup := fieldGetD sd "date_setup" .null
  last_setup := fieldGetD sd "last_setup" .null
  type := fieldGetD sd "type" .null
  last_status_store := fieldGetD sd "last_status_store" .null
  module_name := fieldGetD sd "module_name" (.str "Unknown")
  firmware := fieldGetD sd "firmware" .null
  wifi_status := fieldGetD sd "wifi_status" .null
  reachable := fieldGetD sd "reachable" (.bool false)
  co2_calibrating := fieldGetD sd "co2_calibrating" .null
  data_type := fieldGetD sd "data_type" (.arr [])
  place := fieldGetD sd "place" (.obj [])
  home_id := fieldGetD sd "home_id" .null
  home_name := fieldGetD sd "home_name" (.str "Unknown")
  dashboard_data := fieldGetD sd "dashboard_data" .null
  modules := []

/-- The stations dictionary built by get_stations: a Python dict keyed by the
raw _id values, modeled as an insertion-ordered association list. -/
abbrev StationMap := List (Json × Station)

/-- Python dict lookup stations[k], as an Option. -/
def findSt : StationMap → Json → Option Station
  | [], _ => none
  | (k2, v) :: rest, k => if k2 = k then some v else findSt rest k

/-- Python dict assignment stations[k] = v: replaces in place when the key
exists, appends otherwise. -/
def setSt : StationMap → Json → Station → StationMap
  | [], k, v => [(k, v)]
  | (k2, v2) :: rest, k, v =>
    if k2 = k then (k2, v) :: rest else (k2, v2) :: setSt rest k v

/-- The in-place append stations[k]["modules"].append(m). -/
def addModuleTo : StationMap → Json → Module → StationMap
  | [], _, _ => []
  | (k2, v2) :: rest, k, m =>
    if k2 = k then (k2, { v2 with modules := v2.modules ++ [m] }) :: rest
    else (k2, v2) :: addModuleTo rest k m

/-- Python iteration over the (truthy) value of the modules key: lists yield
their elements, strings yield one-character strings, dicts yield their keys;
any other truthy value raises TypeError. -/
def iterElems : Json → Except PyErr (List Json)
  | .arr xs => .ok xs
  | .str s => .ok (s.toList.map fun c => .str (String.singleton c))
  | .obj fs => .ok (fs.map fun p => .str p.1)
  | _ => .error .typeError

/-- The base-station module types excluded from a station's module list. -/
def EXCLUDED_MODULE_TYPES : List Json := [.str "NAMain", .str "NAWifiStation"]

/-- The inner module loop of get_stations (netatmo_api.py lines 252 to 273):
modules of an excluded type are skipped, every other entry is normalized and
appended to stations[station_id] — which raises KeyError when station_id is
not a key of the dict (the device had no truthy _id, so no entry was made). -/
def addRawModules (m : StationMap) (sid : Json) : List Json → Except PyErr StationMap
  | [] => .ok m
  | mj :: rest =>
    let md := asDict mj
    if fieldGetD md "type" .null ∈ EXCLUDED_MODULE_TYPES then addRawModules m sid rest
    else
      match findSt m sid with
      | none => .error .keyError
      | some _ => addRawModules (addModuleTo m sid (mkModule md)) sid rest

/-- The per-device body of get_stations' outer loop (netatmo_api.py lines
226 to 273): non-dict devices degrade to empty dicts, a truthy _id stores a
fresh station record under it, a falsy modules value ends the iteration for
this device, and otherwise the module loop runs. -/
def stationsStep (m : StationMap) (d : Json) : Except PyErr StationMap :=
  let sd := asDict d
  let sid := fieldGetD sd "_id" .null
  let m1 := if sid.truthy then setSt m sid (mkStation sd sid) else m
  if !(fieldGetD sd "modules" .null).truthy then .ok m1
  else
    match iterElems (fieldGetD sd "modules" .null) with
    | .error e => .error e
    | .ok ms => addRawModules m1 sid ms

def stationsGo : StationMap → List Json → Except PyErr StationMap
  | m, [] => .ok m
  | m, d :: rest =>
    match stationsStep m d with
    | .error e => .error e
    | .ok m2 => stationsGo m2 rest

/-- NetatmoWeatherStationAPI.get_stations (netatmo_api.py lines 217 to 275)
as a function of the raw device list self.stations_data, returning the
stations dict or the Python exception the loop raises. -/
def get_stations (devices : List Json) : Except PyErr StationMap :=
  stationsGo [] devices

/-- The raw _id of a device, None when absent or when the device is not a
dict. -/
def deviceId (d : Json) : Json := fieldGetD (asDict d) "_id" .null

/-- Whether a raw module entry is of an excluded base-station type. -/
def moduleEntryExcluded (mj : Json) : Bool :=
  decide (fieldGetD (asDict mj) "type" .null ∈ EXCLUDED_MODULE_TYPES)

/-- The side condition under which a raw device cannot make get_stations
raise: its modules value is falsy, or it is iterable and — when the device
has no truthy _id — every entry is of an excluded type (so the dict lookup
stations[station_id] is never reached for a missing key). -/
def deviceSafe (d : Json) : Bool :=
  let mods := fieldGetD (asDict d) "modules" .null
  !mods.truthy ||
    (match iterElems mods with
     | .ok ms => (deviceId d).truthy || ms.all moduleEntryExcluded
     | .error _ => false)

/-- The uppercase Gauge globals of client.py (lines 173 to 206) with the
number of label names each was declared with.  A globals()[name] lookup in
the projector can only ever produce an all-uppercase name, and these are
exactly the all-uppercase module-level names, so a lookup outside this table
raises KeyError.  The Python global name is used as the series family
identifier; it is in bijection with the exported metric name. -/
def gaugeLabelCount (g : String) : Option Nat :=
  if g = "STATION_REACHABLE" then some 5
  else if g ∈ ["STATION_LONGITUDE", "STATION_LATITUDE", "STATION_ALTITUDE",
               "STATION_WIFI_STATUS", "STATION_CO2_CALIBRATING"] then some 2
  else if g ∈ ["TEMPERATURE", "MIN_TEMP", "MAX_TEMP", "TEMP_TREND", "HUMIDITY",
               "CO2", "PRESSURE", "PRESSURE_TREND", "ABSOLUTEPRESSURE", "NOISE",
               "RF_STATUS", "BATTERY_VP", "BATTERY_PERCENT", "WINDANGLE",
               "WINDSTRENGTH", "MAX_WIND_ANGLE", "MAX_WIND_STR", "GUSTANGLE",
               "GUSTSTRENGTH", "RAIN", "SUM_RAIN_1", "SUM_RAIN_24"] then some 3
  else none

/-- A metric series is identified by its gauge and its ordered label values
(the arguments of the .labels call). -/
abbrev SeriesKey := String × List Json

/-- One .set call that succeeded: the series it addressed and the coerced
float value it stored. -/
abbrev Write := SeriesKey × Int

/-- The process-lifetime metric series table: the last value written to each
series, none for a series never written. -/
def Table := SeriesKey → Option Int

/-- Gauge .set semantics: unconditional replacement of the series value. -/
def Table.set (σ : Table) (k : SeriesKey) (v : Int) : Table :=
  fun k2 => if k2 = k then some v else σ k2

def emptyTable : Table := fun _ => none

/-- Applying a sequence of .set calls to the series table, in order. -/
def applyWrites : List Write → Table → Table
  | [], σ => σ
  | (k, v) :: rest, σ => applyWrites rest (σ.set k v)

/-- The value of the last write to a given series in a write list, if any. -/
def lastVal : List Write → SeriesKey → Option Int
  | [], _ => none
  | (k2, v) :: rest, k =>
    match lastVal rest k with
    | some v2 => some v2
    | none => if k2 = k then some v else none

/-- Sequencing of write-producing steps: an uncaught exception in the first
step truncates everything after it. -/
def wseq (a : List Write × Option PyErr) (b : Unit → List Write × Option PyErr) :
    List Write × Option PyErr :=
  match a.2 with
  | some e => (a.1, some e)
  | none => (a.1 ++ (b ()).1, (b ()).2)

def wlift : Except PyErr Write → List Write × Option PyErr
  | .ok w => ([w], none)
  | .error e => ([], some e)

/-- globals()[g].labels(ls).set(v): KeyError when g is not one of the gauge
globals, ValueError from prometheus labels() when the number of label values
differs from the gauge's declared label names, then the float(v) coercion of
Gauge.set. -/
def gaugeSet (g : String) (ls : List Json) (v : Json) : Except PyErr Write :=
  match gaugeLabelCount g with
  | none => .error .keyError
  | some n =>
    if ls.length ≠ n then .error .valueError
    else
      match pyFloat v with
      | .ok x => .ok ((g, ls), x)
      | .error e => .error e

/-- Python str.upper(), character by character (the sensor keys and trend
values are ASCII). -/
def pyUpper (s : String) : String := String.mk (s.data.map Char.toUpper)

/-- The TrendState enum of client.py (lines 28 to 31): UP = 1, DOWN = -1,
STABLE = 0; TrendState[name] raises KeyError for any other name. -/
def trendStateValue : String → Option Int
  | "UP" => some 1
  | "DOWN" => some (-1)
  | "STABLE" => some 0
  | _ => none

/-- The timestamp/date sensor keys dropped by get_sensor_data. -/
def DROPPED_SENSOR_KEYS : List String :=
  ["time_utc", "date_max_temp", "date_min_temp", "date_max_wind_str"]

/-- The sensor keys routed through the TrendState translation. -/
def TREND_SENSOR_KEYS : List String := ["temp_trend", "pressure_trend"]

/-- The argument TrendState[_value.upper()].value of the trend-gauge set
call: AttributeError when the reading's value is not a string (.upper on a
non-string), KeyError when the uppercased string is not a TrendState member.
The trend gauges themselves (TEMP_TREND, PRESSURE_TREND) exist and take
three labels, so their globals lookup and labels call always succeed. -/
def trendSetArg : Json → Except PyErr Int
  | .str s =>
    match trendStateValue (pyUpper s) with
    | some n => .ok n
    | none => .error .keyError
  | _ => .error .attributeError

/-- One iteration of the get_sensor_data loop body (client.py lines 120 to
128) for the reading (key, value), with label values ls. -/
def sensorItemWrites (ls : List Json) (kv : String × Json) : List Write × Option PyErr :=
  if kv.1 ∈ DROPPED_SENSOR_KEYS then ([], none)
  else if kv.1 ∈ TREND_SENSOR_KEYS then
    match trendSetArg kv.2 with
    | .ok n => ([((pyUpper kv.1, ls), n)], none)
    | .error e => ([], some e)
  else wlift (gaugeSet (pyUpper kv.1) ls kv.2)

def sensorListWrites (ls : List Json) : List (String × Json) → List Write × Option PyErr
  | [] => ([], none)
  | kv :: rest => wseq (sensorItemWrites ls kv) fun _ => sensorListWrites ls rest

/-- get_sensor_data (client.py lines 118 to 128): a None argument is a no-op
(`if _sensor_data is not None`), a dict is iterated in insertion order, and
any other value raises AttributeError at .items(). -/
def get_sensor_data (sensorData : Json) (stationName moduleName moduleType : Json) :
    List Write × Option PyErr :=
  match sensorData with
  | .null => ([], none)
  | .obj fs => sensorListWrites [stationName, moduleName, moduleType] fs
  | _ => ([], some .attributeError)

/-- safe_list_get (client.py lines 88 to 92): subscripting that catches only
IndexError and returns the default None for it.  Lists and strings past the
end return None; a dict raises KeyError (a parsed-JSON object has no integer
keys); other values raise TypeError — neither is an IndexError, so both
escape. -/
def safe_list_get (j : Json) (i : Nat) : Except PyErr Json :=
  match j with
  | .arr xs => .ok (xs.getD i .null)
  | .str s => .ok (((s.toList.map fun c => Json.str (String.singleton c)).getD i .null))
  | .obj _ => .error .keyError
  | _ => .error .typeError

/-- The per-module body of the poll loop (client.py lines 255 to 270): a
module with dashboard_data None is skipped entirely; otherwise rf_status,
battery_vp and battery_percent are written as module attributes, then the
module's dashboard readings are projected. -/
def moduleWrites (stationName : Json) (m : Module) : List Write × Option PyErr :=
  match m.dashboard_data with
  | .null => ([], none)
  | _ =>
    wseq (wlift (gaugeSet "RF_STATUS" [stationName, m.module_name, m.type] m.rf_status)) fun _ =>
    wseq (wlift (gaugeSet "BATTERY_VP" [stationName, m.module_name, m.type] m.battery_vp)) fun _ =>
    wseq (wlift (gaugeSet "BATTERY_PERCENT" [stationName, m.module_name, m.type] m.battery_percent)) fun _ =>
    get_sensor_data m.dashboard_data stationName m.module_name m.type

def modulesWrites (stationName : Json) : List Module → List Write × Option PyErr
  | [] => ([], none)
  | m :: rest => wseq (moduleWrites stationName m) fun _ => modulesWrites stationName rest

/-- The per-station body of the poll loop (client.py lines 219 to 270), in
source order: the place fields are read first (AttributeError when place is
not a dict), the station_data dict values — altitude, then the two
safe_list_get calls — are computed next, then altitude / longitude /
latitude are written in insertion order; a dashboard_data of None ends the
station (`continue`) BEFORE reachable, wifi_status, co2_calibrating, the
station's sensor readings and its modules are reached. -/
def stationWrites (st : Station) : List Write × Option PyErr :=
  match st.place with
  | .obj pf =>
    let stationName := st.station_name
    let stationModuleName := st.module_name
    let stationModuleType := st.type
    let country := fieldGetD pf "country" (.str "Unknown")
    let timezone := fieldGetD pf "timezone" (.str "Unknown")
    let city := fieldGetD pf "city" (.str "Unknown")
    let longLat := fieldGetD pf "location" (.arr [])
    let altitude := fieldGetD pf "altitude" .null
    match safe_list_get longLat 0 with
    | .error e => ([], some e)
    | .ok longitude =>
      match safe_list_get longLat 1 with
      | .error e => ([], some e)
      | .ok latitude =>
        wseq (wlift (gaugeSet "STATION_ALTITUDE" [stationName, stationModuleType] altitude)) fun _ =>
        wseq (wlift (gaugeSet "STATION_LONGITUDE" [stationName, stationModuleType] longitude)) fun _ =>
        wseq (wlift (gaugeSet "STATION_LATITUDE" [stationName, stationModuleType] latitude)) fun _ =>
        match st.dashboard_data with
        | .null => ([], none)
        | _ =>
          wseq (wlift (gaugeSet "STATION_REACHABLE"
              [stationName, stationModuleType, city, country, timezone] st.reachable)) fun _ =>
          wseq (wlift (gaugeSet "STATION_WIFI_STATUS"
              [stationName, stationModuleType] st.wifi_status)) fun _ =>
          wseq (wlift (gaugeSet "STATION_CO2_CALIBRATING"
              [stationName, stationModuleType] st.co2_calibrating)) fun _ =>
          wseq (get_sensor_data st.dashboard_data stationName stationModuleName stationModuleType) fun _ =>
          modulesWrites stationName st.modules
  | _ => ([], some .attributeError)

/-- One projection pass over the whole normalized topology, iterated in dict
order.  None of the poll loop's except clauses (JSONDecodeError, Throttling,
API, Auth errors; client.py lines 271 to 282) catches the projector's
KeyError / TypeError / AttributeError / ValueError, so a raising reading
truncates the cycle's writes and the exception escapes the loop. -/
def projectCycle : StationMap → List Write × Option PyErr
  | [] => ([], none)
  | (_, st) :: rest => wseq (stationWrites st) fun _ => projectCycle rest

/-- The series table after one projection pass over the topology. -/
def runCycle (sts : StationMap) (σ : Table) : Table :=
  applyWrites (projectCycle sts).1 σ

/-- The refresh-count rule exactly as claim C4 words it (stated here only to
be refuted): one refresh when expires_at is unset or within 60 seconds of
the current time, zero refreshes otherwise. -/
def claimC4RefreshCount (st : AuthTokens) (now : Int) : Nat :=
  if st.token_expires_at = .null then 1
  else
    match pyNum st.token_expires_at with
    | some ev => if ev - now ≤ 60 then 1 else 0
    | none => 0

/-- The condition under which the headers property actually performs its one
refresh call (the amended claim C4): the stored access token is falsy
(absent or empty), or token_expires_at holds a numeric value within 60
seconds of the current time. -/
def amendedRefreshCond (st : AuthTokens) (now : Int) : Prop :=
  st.access_token.truthy = false ∨
    ∃ ev, pyNum st.token_expires_at = some ev ∧ ev - now ≤ 60

/-- Whether a parsed JSON body is an object whose error field is an object
with code equal to 2 (the "invalid access token" marker of claim C7). -/
def bodyErrorCode2 : Option Json → Bool
  | some (.obj fs) =>
    match fieldGet fs "error" with
    | some (.obj efs) => decide (fieldGet efs "code" = some (.num 2))
    | _ => false
  | _ => false

/-- Whether a parsed JSON body is an object with a falsy or absent body
field and a truthy error field. -/
def bodyMissingWithError : Option Json → Bool
  | some (.obj fs) =>
    !(fieldGetD fs "body" .null).truthy && (fieldGetD fs "error" (.obj [])).truthy
  | _ => false

/-- The response classification exactly as claim C7 words it (stated here
only to be refuted): 429 yields ThrottlingError; otherwise status 403 with
JSON body error.code equal to 2 yields AuthError while any other 403 or any
status of at least 400 yields APIError; otherwise a 2xx body with a falsy
body field and a non-empty error field yields APIError; a response passing
all checks succeeds. -/
def claimC7Classification (resp : HttpResponse) : Except NetErr Unit :=
  if resp.status_code = 429 then .error .throttlingError
  else if 400 ≤ resp.status_code then
    if resp.status_code = 403 ∧ bodyErrorCode2 resp.jsonBody then .error .authError
    else .error .apiError
  else if 200 ≤ resp.status_code ∧ resp.status_code < 300 ∧
          bodyMissingWithError resp.jsonBody then .error .apiError
  else .ok ()

/-- The classification the code actually implements, stated per the amended
claim C7: status 429 yields ThrottlingError.  Otherwise on status 403: an
unparsable body yields APIError; a parsed object body whose error field is
an object yields AuthError exactly when that object's code field equals 2
and APIError otherwise; a parsed object body with no error field yields
APIError; a parsed non-object body, or a non-object error field, raises
AttributeError.  Otherwise any status of at least 400 yields APIError.
Otherwise (any status below 400): an unparsable body passes; a parsed
object body fails with APIError exactly when its body field is absent or
falsy and its error field is present and truthy; a parsed non-object body
raises AttributeError. -/
def c7AmendedClassification (resp : HttpResponse) : Except NetErr Unit :=
  if resp.status_code = 429 then .error .throttlingError
  else if resp.status_code = 403 then
    match resp.jsonBody with
    | none => .error .apiError
    | some (.obj fs) =>
      match fieldGet fs "error" with
      | none => .error .apiError
      | some (.obj efs) =>
        if fieldGet efs "code" = some (.num 2) then .error .authError else .error .apiError
      | some _ => .error (.py .attributeError)
    | some _ => .error (.py .attributeError)
  else if 400 ≤ resp.status_code then .error .apiError
  else
    match resp.jsonBody with
    | none => .ok ()
    | some (.obj fs) =>
      if (fieldGetD fs "body" .null).truthy = false ∧
         (match fieldGet fs "error" with | some e => e.truthy | none => false) = true then
        .error .apiError
      else .ok ()
    | some _ => .error (.py .attributeError)

/-- A normalized station whose dashboard holds an unknown trend value first
and an ordinary reading after it: the concrete cycle refuting claim C1. -/
def c1Station : Station where
  id := .str "S1"
  station_name := .str "Home"
  date_setup := .null
  last_setup := .null
  type := .str "NAMain"
  last_status_store := .null
  module_name := .str "Base"
  firmware := .null
  wifi_status := .num 60
  reachable := .bool true
  co2_calibrating := .bool false
  data_type := .arr []
  place := .obj [("altitude", .num 100), ("location", .arr [.num 7, .num 51])]
  home_id := .null
  home_name := .str "Home"
  dashboard_data := .obj [("temp_trend", .str "sideways"), ("Temperature", .num 21)]
  modules := []

/-- A module with a humidity reading, owned by the station refuting claim
C2. -/
def c2Module : Module where
  id := .str "M1"
  type := .str "NAModule1"
  module_name := .str "Outdoor"
  last_setup := .null
  data_type := .arr []
  battery_percent := .num 80
  reachable := .bool true
  firmware := .null
  last_message := .null
  last_seen := .null
  rf_status := .num 70
  battery_vp := .num 5000
  dashboard_data := .obj [("Humidity", .num 55)]

/-- A normalized station with no dashboard_data but with a fully instrumented
module: the concrete topology refuting claim C2. -/
def c2Station : Station where
  id := .str "S1"
  station_name := .str "Home"
  date_setup := .null
  last_setup := .null
  type := .str "NAMain"
  last_status_store := .null
  module_name := .str "Base"
  firmware := .null
  wifi_status := .num 60
  reachable := .bool true
  co2_calibrating := .bool false
  data_type := .arr []
  place := .obj [("altitude", .num 100), ("location", .arr [.num 7, .num 51])]
  home_id := .null
  home_name := .str "Home"
  dashboard_data := .null
  modules := [c2Module]

/-- A normalized station whose place.location has a single element: the
concrete station refuting claim C6. -/
def c6Station : Station where
  id := .str "S1"
  station_name := .str "Home"
  date_setup := .null
  last_setup := .null
  type := .str "NAMain"
  last_status_store := .null
  module_name := .str "Base"
  firmware := .null
  wifi_status := .num 60
  reachable := .bool true
  co2_calibrating := .bool false
  data_type := .arr []
  place := .obj [("altitude", .num 100), ("location", .arr [.num 7])]
  home_id := .null
  home_name := .str "Home"
  dashboard_data := .obj [("Temperature", .num 21)]
  modules := []

/-! ## Helper lemmas shared by the claim theorems -/

theorem wseq_fst_ok {a : List Write × Option PyErr} {b : Unit → List Write × Option PyErr}
    (h : a.2 = none) : wseq a b = (a.1 ++ (b ()).1, (b ()).2) := by
  simp [wseq, h]

theorem wseq_fst_err {a : List Write × Option PyErr} {b : Unit → List Write × Option PyErr}
    {e : PyErr} (h : a.2 = some e) : wseq a b = (a.1, some e) := by
  simp [wseq, h]

theorem wseq_snd_none {a : List Write × Option PyErr} {b : Unit → List Write × Option PyErr}
    (h : (wseq a b).2 = none) : a.2 = none ∧ (b ()).2 = none := by
  cases ha : a.2 with
  | some e => rw [wseq_fst_err ha] at h; exact absurd h (by simp)
  | none => rw [wseq_fst_ok ha] at h; exact ⟨rfl, h⟩

theorem applyWrites_lastVal (L : List Write) (σ : Table) (k : SeriesKey) :
    applyWrites L σ k =
      match lastVal L k with
      | some v => some v
      | none => σ k := by
  induction L generalizing σ with
  | nil => rfl
  | cons w rest ih =>
    obtain ⟨k0, v0⟩ := w
    rw [applyWrites, ih]
    cases h : lastVal rest k with
    | some v => simp [lastVal, h]
    | none =>
      by_cases hk : k0 = k
      · simp [lastVal, h, Table.set, hk]
      · have hk2 : ¬k = k0 := fun hh => hk hh.symm
        simp [lastVal, h, Table.set, hk, hk2]

/-! ## C9: projection is idempotent on the series table -/

/-- Claim C9: for every topology, projecting it twice in a row yields exactly
the same metric series values as projecting it once — every series write is a
last-value-wins replacement, so repeated projection never accumulates. -/
theorem c9_projection_idempotent (sts : StationMap) (σ : Table) :
    runCycle sts (runCycle sts σ) = runCycle sts σ := by
  funext k
  simp only [runCycle]
  rw [applyWrites_lastVal]
  cases h : lastVal (projectCycle sts).1 k with
  | some v => rw [applyWrites_lastVal, h]
  | none => rfl

/-! ## C10: the constructor's token-file read -/

/-- Claim C10, counterexample: a token file that exists and parses as JSON —
but to a list, not an object — does not make the constructor replace its
token fields; the constructor raises AttributeError instead. -/
theorem c10_ctor_counterexample :
    authInit (.str "configured-token") (.parsed (.arr [])) = .error PyErr.attributeError := rfl

/-- Claim C10, amended: for every token file that exists and parses as a JSON
OBJECT, the constructor unconditionally replaces access_token, refresh_token
and expires_at with the file's values, absent keys included; in particular a
parseable object file lacking a refresh_token key overwrites the
constructor-supplied refresh_token with None. -/
theorem c10_ctor_amended (rt : Json) (fs : List (String × Json))
    (hmiss : fieldGet fs "refresh_token" = none) :
    authInit rt (.parsed (.obj fs)) =
      .ok { access_token := fieldGetD fs "access_token" .null
          , refresh_token := .null
          , token_expires_at := fieldGetD fs "expires_at" .null } := by
  simp [authInit, fieldGetD, hmiss]

theorem c10_ctor_amended_witness :
    fieldGet [("access_token", Json.str "a")] "refresh_token" = none ∧
    authInit (Json.str "configured-token") (.parsed (.obj [("access_token", Json.str "a")])) =
      .ok { access_token := Json.str "a", refresh_token := Json.null
          , token_expires_at := Json.null } :=
  ⟨rfl, c10_ctor_amended (Json.str "configured-token") [("access_token", Json.str "a")] rfl⟩

/-! ## C4: when the headers property refreshes -/

/-- Claim C4, counterexample: with a truthy access token and an unset
expires_at the claim demands one refresh call, but the code performs none
(time_until_expiration stays at float inf, and the access token is truthy). -/
theorem c4_headers_counterexample :
    claimC4RefreshCount ⟨Json.str "tok", Json.str "rt", Json.null⟩ 0 = 1 ∧
    headersRefreshCount ⟨Json.str "tok", Json.str "rt", Json.null⟩ 0 = .ok 0 :=
  ⟨rfl, rfl⟩

/-- Claim C4, amended: requesting headers triggers exactly one refresh call
when the stored access_token is falsy OR expires_at holds a numeric value
within 60 seconds of now, and zero refresh calls otherwise — in particular
zero when expires_at is unset but a truthy access_token is present.  The
hypothesis excludes the states where the expiry comparison itself raises
TypeError (expires_at set to a non-numeric value). -/
theorem c4_headers_amended (st : AuthTokens) (now : Int)
    (hwt : st.token_expires_at = Json.null ∨ (pyNum st.token_expires_at).isSome) :
    (amendedRefreshCond st now → headersRefreshCount st now = .ok 1) ∧
    (¬amendedRefreshCond st now → headersRefreshCount st now = .ok 0) := by
  cases hte : st.token_expires_at with
  | null =>
    constructor
    · intro hc
      rcases hc with h1 | ⟨ev, hev, _⟩
      · simp [headersRefreshCount, hte, h1]
      · rw [hte] at hev; simp [pyNum] at hev
    · intro hnc
      have h1 : st.access_token.truthy = true := by
        by_contra h
        exact hnc (Or.inl (by simpa using h))
      simp [headersRefreshCount, hte, h1]
  | num n =>
    have hred : headersRefreshCount st now =
        .ok (if !st.access_token.truthy || decide (n - now ≤ 60) then 1 else 0) := by
      simp [headersRefreshCount, hte, pyNum]
    constructor
    · intro hc
      rw [hred]
      have hcond : (!st.access_token.truthy || decide (n - now ≤ 60)) = true := by
        rcases hc with h1 | ⟨ev, hev, hle⟩
        · simp [h1]
        · rw [hte] at hev
          simp only [pyNum, Option.some.injEq] at hev
          subst hev
          simp [hle]
      rw [hcond]
      rfl
    · intro hnc
      have h1 : st.access_token.truthy = true := by
        by_contra h
        exact hnc (Or.inl (by simpa using h))
      have h2 : ¬(n - now ≤ 60) := by
        intro h
        exact hnc (Or.inr ⟨n, by rw [hte]; rfl, h⟩)
      rw [hred]
      simp [h1, h2]
  | bool b =>
    have hred : headersRefreshCount st now =
        .ok (if !st.access_token.truthy || decide ((if b then (1:Int) else 0) - now ≤ 60)
             then 1 else 0) := by
      simp [headersRefreshCount, hte, pyNum]
    constructor
    · intro hc
      rw [hred]
      have hcond : (!st.access_token.truthy ||
          decide ((if b then (1:Int) else 0) - now ≤ 60)) = true := by
        rcases hc with h1 | ⟨ev, hev, hle⟩
        · simp [h1]
        · rw [hte] at hev
          simp only [pyNum, Option.some.injEq] at hev
          subst hev
          simp [hle]
      rw [hcond]
      rfl
    · intro hnc
      have h1 : st.access_token.truthy = true := by
        by_contra h
        exact hnc (Or.inl (by simpa using h))
      have h2 : ¬((if b then (1:Int) else 0) - now ≤ 60) := by
        intro h
        exact hnc (Or.inr ⟨if b then 1 else 0, by rw [hte]; rfl, h⟩)
      rw [hred]
      simp [h1, h2]
  | str s => rw [hte] at hwt; simp [pyNum] at hwt
  | arr xs => rw [hte] at hwt; simp [pyNum] at hwt
  | obj fs => rw [hte] at hwt; simp [pyNum] at hwt

theorem c4_headers_amended_witness :
    (Json.null = Json.null ∨ (pyNum Json.null).isSome) ∧
    ((amendedRefreshCond ⟨Json.null, Json.str "rt", Json.null⟩ 0 →
        headersRefreshCount ⟨Json.null, Json.str "rt", Json.null⟩ 0 = .ok 1) ∧
     (¬amendedRefreshCond ⟨Json.null, Json.str "rt", Json.null⟩ 0 →
        headersRefreshCount ⟨Json.null, Json.str "rt", Json.null⟩ 0 = .ok 0)) :=
  ⟨Or.inl rfl, c4_headers_amended ⟨Json.null, Json.str "rt", Json.null⟩ 0 (Or.inl rfl)⟩

/-! ## C5: invalid_grant on refresh is terminal -/

/-- Claim C5: every refresh whose token-endpoint response has status 400 and
a JSON object body whose error field equals "invalid_grant" fails with
NetatmoAuthErrorTokenExpired — never with the generic NetatmoAuthError. -/
theorem c5_invalid_grant_terminal (st : AuthTokens) (resp : HttpResponse) (now : Int)
    (fs : List (String × Json))
    (h400 : resp.status_code = 400)
    (hbody : resp.jsonBody = some (.obj fs))
    (herr : fieldGet fs "error" = some (.str "invalid_grant")) :
    refresh st resp now = .error NetErr.authErrorTokenExpired := by
  cases resp with
  | mk s b =>
    simp only at h400 hbody
    subst h400; subst hbody
    simp [refresh, fieldGetD, herr]

theorem c5_invalid_grant_terminal_witness :
    ((400 : Nat) = 400 ∧
     fieldGet [("error", Json.str "invalid_grant")] "error" = some (Json.str "invalid_grant")) ∧
    refresh ⟨Json.null, Json.str "r", Json.null⟩
        ⟨400, some (Json.obj [("error", Json.str "invalid_grant")])⟩ 0 =
      .error NetErr.authErrorTokenExpired :=
  ⟨⟨rfl, rfl⟩,
   c5_invalid_grant_terminal ⟨Json.null, Json.str "r", Json.null⟩
     ⟨400, some (Json.obj [("error", Json.str "invalid_grant")])⟩ 0
     [("error", Json.str "invalid_grant")] rfl rfl rfl⟩

/-! ## C8: what a successful refresh updates and persists -/

/-- Claim C8: every successful refresh — status below 400, a JSON object
body, a numeric non-zero expires_in — updates access_token to the response's
access_token, sets expires_at to now plus expires_in, keeps the stored
refresh_token unless the response carries a refresh_token key (in which case
that value is taken), and writes exactly those three fields to the token
file. -/
theorem c8_refresh_success (st : AuthTokens) (resp : HttpResponse) (now : Int)
    (fs : List (String × Json)) (n : Int)
    (hok : resp.status_code < 400)
    (hbody : resp.jsonBody = some (.obj fs))
    (hei : fieldGet fs "expires_in" = some (.num n))
    (hnz : n ≠ 0) :
    refresh st resp now =
      .ok ({ access_token := fieldGetD fs "access_token" .null
           , refresh_token := fieldGetD fs "refresh_token" st.refresh_token
           , token_expires_at := .num (now + n) },
           .obj [("access_token", fieldGetD fs "access_token" .null)
                , ("refresh_token", fieldGetD fs "refresh_token" st.refresh_token)
                , ("expires_at", .num (now + n))]) := by
  cases resp with
  | mk s b =>
    simp only at hok hbody
    subst hbody
    have h1 : ¬s = 400 := by omega
    have h2 : ¬(400 ≤ s ∧ s < 600) := by omega
    have hei2 : fieldGetD fs "expires_in" .null = .num n := by simp [fieldGetD, hei]
    have htr : (Json.num n).truthy = true := by simp [Json.truthy, hnz]
    simp only [refresh, h1, h2, if_false, hei2, htr, if_true, pyNum]
    by_cases hrt : fieldGetD fs "refresh_token" st.refresh_token = st.refresh_token <;>
      simp [hrt]

theorem c8_refresh_success_witness :
    ((200 : Nat) < 400 ∧
     fieldGet [("access_token", Json.str "a"), ("expires_in", Json.num 10800)] "expires_in" =
       some (Json.num 10800) ∧ (10800 : Int) ≠ 0) ∧
    refresh ⟨Json.null, Json.str "r", Json.null⟩
        ⟨200, some (Json.obj [("access_token", Json.str "a"), ("expires_in", Json.num 10800)])⟩
        1000 =
      .ok ({ access_token := Json.str "a", refresh_token := Json.str "r"
           , token_expires_at := Json.num 11800 },
           Json.obj [("access_token", Json.str "a"), ("refresh_token", Json.str "r")
                    , ("expires_at", Json.num 11800)]) := by
  refine ⟨⟨by norm_num, rfl, by norm_num⟩, ?_⟩
  have h := c8_refresh_success ⟨Json.null, Json.str "r", Json.null⟩
    ⟨200, some (Json.obj [("access_token", Json.str "a"), ("expires_in", Json.num 10800)])⟩
    1000 [("access_token", Json.str "a"), ("expires_in", Json.num 10800)] 10800
    (by norm_num) rfl rfl (by norm_num)
  simpa using h


/-! ## C1: unknown trend values -/

/-- Claim C1, counterexample: a cycle whose station dashboard holds the trend
reading ("temp_trend", "sideways") followed by ("Temperature", 21).  There is
no UnknownTrendValue anywhere in the code: the TrendState lookup raises the
builtin KeyError, which no handler catches, and the Temperature reading of
the same cycle is NOT projected. -/
theorem c1_trend_counterexample :
    (projectCycle [(Json.str "S1", c1Station)]).2 = some PyErr.keyError ∧
    runCycle [(Json.str "S1", c1Station)] emptyTable
      ("TEMPERATURE", [Json.str "Home", Json.str "Base", Json.str "NAMain"]) = none :=
  ⟨rfl, rfl⟩

/-- Claim C1, amended: a reading whose key is temp_trend (or pressure_trend)
with a string value not in TrendState (case-insensitive) makes the projector
raise the Python builtin KeyError — there is no UnknownTrendValue exception —
and this aborts the projection: the readings before it in the same dashboard
are the only ones written, everything after it in the cycle is dropped, and
the exception escapes the poll loop's handlers. -/
theorem c1_trend_amended (ls : List Json) (pre post : List (String × Json)) (s : String)
    (hbad : trendStateValue (pyUpper s) = none)
    (hpre : (sensorListWrites ls pre).2 = none) :
    sensorListWrites ls (pre ++ ("temp_trend", Json.str s) :: post) =
      ((sensorListWrites ls pre).1, some PyErr.keyError) := by
  induction pre with
  | nil =>
    simp only [List.nil_append, sensorListWrites]
    have hitem : sensorItemWrites ls ("temp_trend", Json.str s) = ([], some PyErr.keyError) := by
      simp [sensorItemWrites, DROPPED_SENSOR_KEYS, TREND_SENSOR_KEYS, trendSetArg, hbad]
    rw [hitem, wseq_fst_err rfl]
  | cons kv rest ih =>
    rw [sensorListWrites] at hpre
    obtain ⟨hkv, hrest⟩ := wseq_snd_none hpre
    rw [List.cons_append, sensorListWrites, wseq_fst_ok hkv, ih hrest,
        sensorListWrites, wseq_fst_ok hkv]

theorem c1_trend_amended_witness :
    (trendStateValue (pyUpper "sideways") = none ∧
     (sensorListWrites [Json.str "Home", Json.str "Base", Json.str "NAMain"]
        [("Temperature", Json.num 21)]).2 = none) ∧
    sensorListWrites [Json.str "Home", Json.str "Base", Json.str "NAMain"]
        ([("Temperature", Json.num 21)] ++
          ("temp_trend", Json.str "sideways") :: [("Humidity", Json.num 50)]) =
      ((sensorListWrites [Json.str "Home", Json.str "Base", Json.str "NAMain"]
          [("Temperature", Json.num 21)]).1, some PyErr.keyError) :=
  ⟨⟨rfl, rfl⟩,
   c1_trend_amended [Json.str "Home", Json.str "Base", Json.str "NAMain"]
     [("Temperature", Json.num 21)] [("Humidity", Json.num 50)] "sideways" rfl rfl⟩

/-! ## C2: stations without dashboard_data -/

/-- Claim C2, counterexample: a station with dashboard_data absent and a
fully instrumented module.  The projection finishes without error, but the
`continue` skips the ENTIRE rest of the station: neither the module's
attribute series (battery_percent) nor its sensor series (Humidity) is
written, contrary to the claim. -/
theorem c2_missing_dashboard_counterexample :
    (projectCycle [(Json.str "S1", c2Station)]).2 = none ∧
    runCycle [(Json.str "S1", c2Station)] emptyTable
      ("HUMIDITY", [Json.str "Home", Json.str "Outdoor", Json.str "NAModule1"]) = none ∧
    runCycle [(Json.str "S1", c2Station)] emptyTable
      ("BATTERY_PERCENT", [Json.str "Home", Json.str "Outdoor", Json.str "NAModule1"]) = none :=
  ⟨rfl, rfl, rfl⟩

/-- Claim C2, amended: for a normalized station whose dashboard_data is
absent, the poll loop writes the station's geo series and then `continue`s to
the NEXT station — its modules are never projected: the station's writes do
not depend on its module list at all. -/
theorem c2_missing_dashboard_amended (st : Station) (mods : List Module)
    (h : st.dashboard_data = Json.null) :
    stationWrites { st with modules := mods } = stationWrites { st with modules := [] } := by
  cases st with
  | mk id sn ds ls2 ty lss mn fw ws rc cc dt pl hid hn dd mods0 =>
    simp only at h
    subst h
    cases pl <;> rfl

theorem c2_missing_dashboard_amended_witness :
    c2Station.dashboard_data = Json.null ∧
    stationWrites { c2Station with modules := [c2Module] } =
      stationWrites { c2Station with modules := [] } :=
  ⟨rfl, c2_missing_dashboard_amended c2Station [c2Module] rfl⟩

/-! ## C6: short place.location lists -/

/-- Claim C6, counterexample: a station whose place.location is the
one-element list [7].  The missing latitude defaults to None, but the series
write is NOT skipped: the code calls .set(None), float(None) raises
TypeError, the latitude series stays unwritten and the rest of the cycle —
here the Temperature reading — is aborted. -/
theorem c6_location_counterexample :
    (stationWrites c6Station).2 = some PyErr.typeError ∧
    (stationWrites c6Station).1 =
      [(("STATION_ALTITUDE", [Json.str "Home", Json.str "NAMain"]), 100),
       (("STATION_LONGITUDE", [Json.str "Home", Json.str "NAMain"]), 7)] ∧
    runCycle [(Json.str "S1", c6Station)] emptyTable
      ("TEMPERATURE", [Json.str "Home", Json.str "Base", Json.str "NAMain"]) = none :=
  ⟨rfl, rfl, rfl⟩

/-- Claim C6, amended: for a station whose place.location list has exactly
one (numeric) element and a numeric altitude, safe_list_get resolves the
missing index 1 to None, and projection writes altitude and longitude, then
attempts the latitude write with None, which raises TypeError: the latitude
series is not written — not as zero either — but the station's projection is
aborted rather than the write being skipped. -/
theorem c6_location_amended (st : Station) (pf : List (String × Json)) (a x : Int)
    (hpl : st.place = Json.obj pf)
    (halt : fieldGet pf "altitude" = some (Json.num a))
    (hloc : fieldGet pf "location" = some (Json.arr [Json.num x])) :
    stationWrites st =
      ([(("STATION_ALTITUDE", [st.station_name, st.type]), a),
        (("STATION_LONGITUDE", [st.station_name, st.type]), x)],
       some PyErr.typeError) := by
  cases st with
  | mk id sn ds ls2 ty lss mn fw ws rc cc dt pl hid hn dd mods0 =>
    simp only at hpl
    subst hpl
    simp [stationWrites, fieldGetD, halt, hloc, safe_list_get, gaugeSet, gaugeLabelCount,
          pyFloat, wseq, wlift]

theorem c6_location_amended_witness :
    (c6Station.place =
       Json.obj [("altitude", Json.num 100), ("location", Json.arr [Json.num 7])] ∧
     fieldGet [("altitude", Json.num 100), ("location", Json.arr [Json.num 7])] "altitude" =
       some (Json.num 100) ∧
     fieldGet [("altitude", Json.num 100), ("location", Json.arr [Json.num 7])] "location" =
       some (Json.arr [Json.num 7])) ∧
    stationWrites c6Station =
      ([(("STATION_ALTITUDE", [Json.str "Home", Json.str "NAMain"]), 100),
        (("STATION_LONGITUDE", [Json.str "Home", Json.str "NAMain"]), 7)],
       some PyErr.typeError) := by
  refine ⟨⟨rfl, rfl, rfl⟩, ?_⟩
  have h := c6_location_amended c6Station
    [("altitude", Json.num 100), ("location", Json.arr [Json.num 7])] 100 7 rfl rfl rfl
  simpa using h


/-! ## C7: fetch response classification -/

/-- Claim C7, counterexample: a 403 response whose body parses as JSON but
to a bare string.  The claim demands APIError for any 403 without
error.code == 2, but error_data.get raises AttributeError on the non-dict
body, and nothing catches it. -/
theorem c7_classification_counterexample :
    handle_response_errors ⟨403, some (Json.str "x")⟩ = .error (NetErr.py PyErr.attributeError) ∧
    claimC7Classification ⟨403, some (Json.str "x")⟩ = .error NetErr.apiError :=
  ⟨rfl, rfl⟩

/-- Claim C7, amended: the classification priority holds as claimed for
responses whose consulted JSON is an object (with, on 403, an object or
absent error field); the remaining responses raise AttributeError, and the
body check also applies to every status below 400, not just 2xx.  Stated as
an exact characterization: the handler equals the amended classifier on
every response. -/
theorem c7_classification_amended (resp : HttpResponse) :
    handle_response_errors resp = c7AmendedClassification resp := by
  obtain ⟨s, b⟩ := resp
  by_cases h429 : s = 429
  · simp [handle_response_errors, c7AmendedClassification, h429]
  by_cases h403 : s = 403
  · subst h403
    cases b with
    | none => simp [handle_response_errors, c7AmendedClassification]
    | some j =>
      cases j with
      | obj fs =>
        cases herr : fieldGet fs "error" with
        | none =>
          simp [handle_response_errors, c7AmendedClassification, fieldGetD, herr, fieldGet]
        | some e =>
          cases e <;>
            simp [handle_response_errors, c7AmendedClassification, fieldGetD, herr]
      | null => simp [handle_response_errors, c7AmendedClassification]
      | bool bb => simp [handle_response_errors, c7AmendedClassification]
      | num n => simp [handle_response_errors, c7AmendedClassification]
      | str ss => simp [handle_response_errors, c7AmendedClassification]
      | arr xs => simp [handle_response_errors, c7AmendedClassification]
  by_cases h400 : 400 ≤ s
  · simp [handle_response_errors, c7AmendedClassification, h429, h403, h400]
  · cases b with
    | none => simp [handle_response_errors, c7AmendedClassification, h429, h403, h400]
    | some j =>
      cases j with
      | obj fs =>
        simp only [handle_response_errors, c7AmendedClassification, h429, h403, h400,
          if_false, reduceIte]
        by_cases hb : (fieldGetD fs "body" Json.null).truthy
        · simp [hb]
        · cases herr : fieldGet fs "error" with
          | none => simp [hb, fieldGetD, herr, Json.truthy]
          | some e => by_cases he : e.truthy <;> simp [hb, fieldGetD, herr, he]
      | null => simp [handle_response_errors, c7AmendedClassification, h429, h403, h400]
      | bool bb => simp [handle_response_errors, c7AmendedClassification, h429, h403, h400]
      | num n => simp [handle_response_errors, c7AmendedClassification, h429, h403, h400]
      | str ss => simp [handle_response_errors, c7AmendedClassification, h429, h403, h400]
      | arr xs => simp [handle_response_errors, c7AmendedClassification, h429, h403, h400]

/-! ## C3: normalization never raising -/

theorem findSt_isSome_iff (m : StationMap) (k : Json) :
    (findSt m k).isSome ↔ k ∈ m.map Prod.fst := by
  induction m with
  | nil => simp [findSt]
  | cons p rest ih =>
    obtain ⟨k2, v⟩ := p
    by_cases hk : k2 = k
    · simp [findSt, hk]
    · have hk2 : ¬(k = k2) := fun h => hk h.symm
      simp [findSt, hk, hk2, ih]

theorem setSt_keys (m : StationMap) (k : Json) (v : Station) :
    (setSt m k v).map Prod.fst =
      if k ∈ m.map Prod.fst then m.map Prod.fst else m.map Prod.fst ++ [k] := by
  induction m with
  | nil => simp [setSt]
  | cons p rest ih =>
    obtain ⟨k2, v2⟩ := p
    by_cases hk : k2 = k
    · subst hk
      simp [setSt]
    · have hk2 : ¬(k = k2) := fun h => hk h.symm
      by_cases hm : k ∈ rest.map Prod.fst <;> simp [setSt, hk, hk2, hm, ih]

theorem addModuleTo_keys (m : StationMap) (k : Json) (md : Module) :
    (addModuleTo m k md).map Prod.fst = m.map Prod.fst := by
  induction m with
  | nil => rfl
  | cons p rest ih =>
    obtain ⟨k2, v2⟩ := p
    by_cases hk : k2 = k <;> simp [addModuleTo, hk, ih]

theorem addRawModules_ok (ms : List Json) :
    ∀ (m : StationMap) (sid : Json),
      sid ∈ m.map Prod.fst ∨ ms.all moduleEntryExcluded = true →
      ∃ m2, addRawModules m sid ms = .ok m2 ∧ m2.map Prod.fst = m.map Prod.fst := by
  induction ms with
  | nil => exact fun m sid _ => ⟨m, rfl, rfl⟩
  | cons mj rest ih =>
    intro m sid h
    by_cases hex : fieldGetD (asDict mj) "type" Json.null ∈ EXCLUDED_MODULE_TYPES
    · have h2 : sid ∈ m.map Prod.fst ∨ rest.all moduleEntryExcluded = true := by
        rcases h with h1 | h1
        · exact Or.inl h1
        · right
          rw [List.all_cons, Bool.and_eq_true] at h1
          exact h1.2
      obtain ⟨m2, hm2, hk2⟩ := ih m sid h2
      exact ⟨m2, by simp [addRawModules, hex, hm2], hk2⟩
    · have hin : sid ∈ m.map Prod.fst := by
        rcases h with h1 | h1
        · exact h1
        · exfalso
          rw [List.all_cons, Bool.and_eq_true] at h1
          have := h1.1
          rw [moduleEntryExcluded, decide_eq_true_eq] at this
          exact hex this
      have hfind : (findSt m sid).isSome := (findSt_isSome_iff m sid).mpr hin
      obtain ⟨stv, hstv⟩ := Option.isSome_iff_exists.mp hfind
      have hin2 : sid ∈ (addModuleTo m sid (mkModule (asDict mj))).map Prod.fst := by
        rw [addModuleTo_keys]; exact hin
      obtain ⟨m2, hm2, hk2⟩ := ih (addModuleTo m sid (mkModule (asDict mj))) sid (Or.inl hin2)
      refine ⟨m2, ?_, by rw [hk2, addModuleTo_keys]⟩
      simp [addRawModules, hex, hstv, hm2]

theorem stationsStep_ok (m : StationMap) (d : Json) (hd : deviceSafe d = true) :
    ∃ m2, stationsStep m d = .ok m2 ∧
      m2.map Prod.fst =
        (if (deviceId d).truthy then
           (if deviceId d ∈ m.map Prod.fst then m.map Prod.fst
            else m.map Prod.fst ++ [deviceId d])
         else m.map Prod.fst) := by
  by_cases hmods : (fieldGetD (asDict d) "modules" Json.null).truthy
  · rw [deviceSafe] at hd
    simp only [hmods, Bool.not_true, Bool.false_or] at hd
    cases hit : iterElems (fieldGetD (asDict d) "modules" Json.null) with
    | error e => rw [hit] at hd; simp at hd
    | ok ms =>
      rw [hit] at hd
      rw [Bool.or_eq_true] at hd
      by_cases htr : (deviceId d).truthy
      · have harg : deviceId d ∈ (setSt m (deviceId d) (mkStation (asDict d) (deviceId d))).map Prod.fst ∨
            ms.all moduleEntryExcluded = true := by
          left
          rw [setSt_keys]
          by_cases hmem : deviceId d ∈ m.map Prod.fst <;> simp [hmem]
        obtain ⟨m2, hm2, hk2⟩ := addRawModules_ok ms _ (deviceId d) harg
        refine ⟨m2, ?_, ?_⟩
        · simp only [stationsStep, deviceId] at *
          simp [hmods, htr, hit, hm2]
        · rw [hk2, setSt_keys, if_pos htr]
      · have hall : ms.all moduleEntryExcluded = true := by
          rcases hd with h1 | h1
          · exact absurd h1 htr
          · exact h1
        obtain ⟨m2, hm2, hk2⟩ := addRawModules_ok ms m (deviceId d) (Or.inr hall)
        refine ⟨m2, ?_, ?_⟩
        · simp only [stationsStep, deviceId] at *
          simp [hmods, htr, hit, hm2]
        · rw [hk2, if_neg htr]
  · by_cases htr : (deviceId d).truthy
    · refine ⟨setSt m (deviceId d) (mkStation (asDict d) (deviceId d)), ?_, ?_⟩
      · simp only [stationsStep, deviceId] at *
        simp [hmods, htr]
      · rw [setSt_keys, if_pos htr]
    · refine ⟨m, ?_, ?_⟩
      · simp only [stationsStep, deviceId] at *
        simp [hmods, htr]
      · rw [if_neg htr]

theorem stationsGo_ok (devices : List Json) :
    ∀ m : StationMap,
      (∀ d ∈ devices, deviceSafe d = true) →
      (∀ k ∈ m.map Prod.fst, k.truthy = true) →
      (m.map Prod.fst).Nodup →
      ∃ m2, stationsGo m devices = .ok m2 ∧
        (m2.map Prod.fst).Nodup ∧
        (∀ k ∈ m2.map Prod.fst, k.truthy = true) ∧
        (∀ k, k ∈ m2.map Prod.fst ↔
          (k ∈ m.map Prod.fst ∨ (k.truthy = true ∧ k ∈ devices.map deviceId))) := by
  induction devices with
  | nil =>
    intro m _ htr hnd
    exact ⟨m, rfl, hnd, htr, fun k => by simp⟩
  | cons d rest ih =>
    intro m hsafe htr hnd
    obtain ⟨m1, hstep, hkeys⟩ := stationsStep_ok m d (hsafe d (by simp))
    have hmem1 : ∀ k, k ∈ m1.map Prod.fst ↔
        (k ∈ m.map Prod.fst ∨ ((deviceId d).truthy = true ∧ k = deviceId d)) := by
      intro k
      rw [hkeys]
      by_cases htrd : (deviceId d).truthy
      · by_cases hmem : deviceId d ∈ m.map Prod.fst
        · simp only [htrd, hmem, if_true]
          constructor
          · exact fun h => Or.inl h
          · rintro (h | ⟨-, rfl⟩)
            · exact h
            · exact hmem
        · simp [htrd, hmem]
      · simp [htrd]
    have htr1 : ∀ k ∈ m1.map Prod.fst, k.truthy = true := by
      intro k hk
      rcases (hmem1 k).mp hk with h1 | ⟨h1, h2⟩
      · exact htr k h1
      · rw [h2]; exact h1
    have hnd1 : (m1.map Prod.fst).Nodup := by
      rw [hkeys]
      by_cases htrd : (deviceId d).truthy
      · by_cases hmem : deviceId d ∈ m.map Prod.fst
        · simpa [htrd, hmem] using hnd
        · simp only [htrd, hmem, if_true, if_false]
          rw [List.nodup_append]
          exact ⟨hnd, List.nodup_singleton _, by simpa using hmem⟩
      · simpa [htrd] using hnd
    obtain ⟨m2, hgo, hnd2, htr2, hmem2⟩ :=
      ih m1 (fun d2 hd2 => hsafe d2 (by simp [hd2])) htr1 hnd1
    refine ⟨m2, ?_, hnd2, htr2, ?_⟩
    · simp [stationsGo, hstep, hgo]
    · intro k
      rw [hmem2 k, hmem1 k]
      constructor
      · rintro ((h1 | ⟨h1, rfl⟩) | ⟨h1, h2⟩)
        · exact Or.inl h1
        · exact Or.inr ⟨h1, by simp⟩
        · exact Or.inr ⟨h1, by simp [h2]⟩
      · rintro (h1 | ⟨h1, h2⟩)
        · exact Or.inl (Or.inl h1)
        · rw [List.map_cons, List.mem_cons] at h2
          rcases h2 with h2 | h2
          · exact Or.inl (Or.inr ⟨by rw [← h2]; exact h1, h2⟩)
          · exact Or.inr ⟨h1, h2⟩

/-- Claim C3, counterexample: a device list whose single device has no _id
but one (non-excluded, empty-dict) module entry.  get_stations raises
KeyError at stations[station_id] — it does not "never raise". -/
theorem c3_normalize_counterexample :
    get_stations [Json.obj [("modules", Json.arr [Json.obj []])]] = .error PyErr.keyError := rfl

/-- Claim C3, amended: get_stations never raises and returns one station
entry per distinct truthy device _id — devices with an absent (or falsy) _id
being skipped — PROVIDED that every device whose modules value is truthy has
an iterable modules value and either a truthy _id or only excluded-type
module entries; a device outside this proviso makes the loop raise (KeyError
at stations[station_id], or TypeError iterating a non-iterable). -/
theorem c3_normalize_amended (devices : List Json)
    (hsafe : ∀ d ∈ devices, deviceSafe d = true) :
    ∃ m, get_stations devices = .ok m ∧ (m.map Prod.fst).Nodup ∧
      ∀ k, (findSt m k).isSome ↔ (k.truthy = true ∧ k ∈ devices.map deviceId) := by
  obtain ⟨m2, hgo, hnd, htr, hmem⟩ := stationsGo_ok devices [] hsafe (by simp) (by simp)
  refine ⟨m2, hgo, hnd, fun k => ?_⟩
  rw [findSt_isSome_iff, hmem k]
  simp

theorem c3_normalize_amended_witness :
    (∀ d ∈ [Json.obj [("_id", Json.str "S1")], Json.obj [("x", Json.num 1)]],
       deviceSafe d = true) ∧
    ∃ m, get_stations [Json.obj [("_id", Json.str "S1")], Json.obj [("x", Json.num 1)]] = .ok m ∧
      (m.map Prod.fst).Nodup ∧
      ∀ k, (findSt m k).isSome ↔
        (k.truthy = true ∧
         k ∈ [Json.obj [("_id", Json.str "S1")], Json.obj [("x", Json.num 1)]].map deviceId) :=
  ⟨by decide, c3_normalize_amended _ (by decide)⟩

end Netatmo
